import Mathlib

/-!
Verification development for the AR.IO node setup wizard's deployment
orchestration server (`server/index.js`) and its artifact generator.

The JavaScript code is shallowly embedded: configuration records become
finite maps from key names to JavaScript-like values (`JVal`), the env-file
generator `buildEnvFile` becomes a fold over an explicit list of emission
segments mirroring the source's sequence of guarded `lines.push` loops, the
service-selection logic becomes `servicesToStart`, the compose-file patcher
becomes executable text rewriting over character lists, and the HTTP
endpoint handlers become a step function over an explicit server state.
-/

namespace ArIoWizard



/-- A JavaScript value as it can appear in a configuration field posted to
the server: a string, a boolean, or an absent field (`undefined`/`null`). -/
inductive JVal where
  | str (s : String)
  | bool (b : Bool)
  | undef
deriving DecidableEq, Repr

/-- String interpolation of a JavaScript value, as in a template literal
`${value}`. -/
def JVal.interp : JVal → String
  | .str s => s
  | .bool true => "true"
  | .bool false => "false"
  | .undef => "undefined"

/-- The JavaScript check `value != null && value !== ''` used by every
keyed emission loop of `buildEnvFile`. -/
def JVal.nonEmpty : JVal → Bool
  | .str s => s ≠ ""
  | .bool _ => true
  | .undef => false

/-- JavaScript truthiness of a configuration field (`if (value) ...`). -/
def JVal.truthy : JVal → Bool
  | .str s => s ≠ ""
  | .bool b => b
  | .undef => false

/-- A configuration record (`nodeConfig` or `dashboardConfig`): a total map
from field names to JavaScript values, absent fields being `JVal.undef`. -/
def EnvMap : Type := String → JVal

/-- The `dockerConfig` record of a deployment request, as read by the server
(boolean service-selection mirrors). -/
structure DockerConfig where
  useEnvoy : Bool
  enableBundler : Bool
  enableAoCu : Bool
  enableGrafana : Bool
  enableDashboard : Bool
  enableClickhouse : Bool
  enableLitestream : Bool
  enableAutoheal : Bool
  enableSsl : Bool
deriving DecidableEq, Repr

/-- The structured configuration object posted to `POST /deploy`. -/
structure DeploymentConfig where
  nodeConfig : EnvMap
  dashboardConfig : EnvMap
  dockerConfig : DockerConfig

/-- One `KEY=VALUE` line, as produced by the template literal
`` `${key}=${value}` `` in the source. -/
def renderLine (k v : String) : String := k ++ "=" ++ v

/-- The deny-list of `(key, default-value)` pairs in `shouldIncludeValue`
(`server/index.js`): placeholder defaults never emitted to the main env
file. -/
def denyPairs : List (String × String) :=
  [("AWS_ACCESS_KEY_ID", "test"), ("AWS_SECRET_ACCESS_KEY", "test"),
   ("AWS_ENDPOINT", "http://localstack:4566"), ("ADMIN_USERNAME", "admin"),
   ("ADMIN_PASSWORD", ""), ("SSL_CERT_PATH", ""), ("SSL_KEY_PATH", "")]

/-- Lookup of a key's deny-listed placeholder default
(`defaultValues[key]`). -/
def defaultValueFor (k : String) : Option String :=
  (denyPairs.find? (fun p => p.1 = k)).map Prod.snd

/-- The helper `shouldIncludeValue(key, value)` of `buildEnvFile`: a value
is emitted only when non-null, non-empty, and not equal to its deny-listed
placeholder default. -/
def shouldIncludeValue (k : String) (v : JVal) : Bool :=
  if v.nonEmpty = false then false
  else
    match defaultValueFor k with
    | some d => v ≠ JVal.str d
    | none => true

/-- The `coreNodeConfigs` key list of `buildEnvFile`: node fields always
emitted when non-empty. -/
def coreNodeConfigs : List String :=
  ["AR_IO_WALLET", "OBSERVER_WALLET", "ADMIN_API_KEY", "ADMIN_API_KEY_FILE",
   "GRAPHQL_HOST", "GRAPHQL_PORT",
   "ARNS_ROOT_HOST", "START_HEIGHT", "STOP_HEIGHT", "TRUSTED_ARWEAVE_URL",
   "TRUSTED_NODE_URL",
   "TRUSTED_GATEWAY_URL", "TRUSTED_ARNS_GATEWAY_URL", "INSTANCE_ID",
   "LOG_FORMAT", "LOG_FILTER",
   "WEBHOOK_TARGET_SERVERS", "WEBHOOK_INDEX_FILTER", "WEBHOOK_BLOCK_FILTER",
   "SKIP_CACHE", "FILTER_CHANGE_REPROCESS", "SANDBOX_PROTOCOL",
   "SIMULATED_REQUEST_FAILURE_RATE",
   "START_WRITERS", "RUN_OBSERVER", "ENABLE_MEMPOOL_WATCHER",
   "MEMPOOL_POLLING_INTERVAL_MS",
   "BACKFILL_BUNDLE_RECORDS",
   "NODE_MAX_OLD_SPACE_SIZE", "RUN_AUTOHEAL",
   "CORE_PORT", "ENVOY_PORT", "OBSERVER_PORT",
   "CHAIN_CACHE_TYPE", "REDIS_CACHE_URL", "REDIS_USE_TLS",
   "REDIS_CACHE_TTL_SECONDS"]

/-- The `serviceSpecificNodeConfigs.bundler` key list (empty in the
source). -/
def bundlerNodeKeys : List String := []

/-- The `serviceSpecificDashboardConfigs.envoy` key list. -/
def envoyKeys : List String := ["ENVOY_PORT"]

/-- The `serviceSpecificDashboardConfigs.redis` key list. -/
def redisKeys : List String := ["REDIS_MAX_MEMORY", "EXTRA_REDIS_FLAGS"]

/-- The `serviceSpecificDashboardConfigs.clickhouse` key list. -/
def clickhouseKeys : List String :=
  ["CLICKHOUSE_PORT", "CLICKHOUSE_PORT_2", "CLICKHOUSE_PORT_3",
   "CLICKHOUSE_USER", "CLICKHOUSE_PASSWORD"]

/-- The `serviceSpecificDashboardConfigs.litestream` key list. -/
def litestreamKeys : List String :=
  ["AR_IO_SQLITE_BACKUP_S3_BUCKET_NAME", "AR_IO_SQLITE_BACKUP_S3_BUCKET_REGION",
   "AR_IO_SQLITE_BACKUP_S3_BUCKET_ACCESS_KEY",
   "AR_IO_SQLITE_BACKUP_S3_BUCKET_SECRET_KEY",
   "AR_IO_SQLITE_BACKUP_S3_BUCKET_PREFIX"]

/-- The `adminConfigs` key list emitted when the admin dashboard is
enabled. -/
def adminKeys : List String := ["ADMIN_API_KEY", "ADMIN_USERNAME", "ADMIN_PASSWORD"]

/-- The `bundlerConfigs` key list of the main env file. -/
def bundlerKeys : List String :=
  ["BUNDLER_ARWEAVE_WALLET", "BUNDLER_ARWEAVE_ADDRESS", "GATEWAY_URL",
   "UPLOADER_URL", "APP_NAME", "ANS104_INDEX_FILTER", "ANS104_UNBUNDLE_FILTER",
   "AWS_S3_CONTIGUOUS_DATA_BUCKET", "AWS_S3_CONTIGUOUS_DATA_PREFIX",
   "AWS_ACCESS_KEY_ID",
   "AWS_SECRET_ACCESS_KEY", "AWS_REGION", "AWS_ENDPOINT",
   "ALLOW_LISTED_ADDRESSES"]

/-- The `aoCuConfigs` key list of the main env file. -/
def aoCuKeys : List String :=
  ["CU_WALLET", "PROCESS_CHECKPOINT_TRUSTED_OWNERS", "ADDITIONAL_AO_CU_ENV"]

/-- The `sslConfigs` key list of the main env file. -/
def sslKeys : List String := ["ENABLE_SSL", "SSL_CERT_PATH", "SSL_KEY_PATH"]

/-- One emission segment of `buildEnvFile`, mirroring one guarded
`forEach`/`push` block of the source: a plain keyed loop (non-empty check
only), a deny-list-guarded keyed loop, a literal feature-toggle push, or
the raw pass-through of `ADDITIONAL_ENV` lines. -/
inductive Seg where
  | plain (src : EnvMap) (keys : List String)
  | guarded (src : EnvMap) (keys : List String)
  | toggle (name : String)
  | raw (ls : List String)

/-- State threaded through `buildEnvFile`: the `lines` array and the `seen`
set (modelled as a list). -/
def EmitAcc : Type := List String × List String

/-- Push one key of a plain segment:
`if (src[key] != null && src[key] !== '' && !seen.has(key))`. -/
def pushPlain (src : EnvMap) (acc : EmitAcc) (k : String) : EmitAcc :=
  if (src k).nonEmpty && !(acc.2.contains k) then
    (acc.1 ++ [renderLine k (src k).interp], acc.2 ++ [k])
  else acc

/-- Push one key of a guarded segment:
`if (!seen.has(key) && shouldIncludeValue(key, src[key]))` (the sites that
additionally re-check non-emptiness are equivalent, since
`shouldIncludeValue` already rejects empty values). -/
def pushGuarded (src : EnvMap) (acc : EmitAcc) (k : String) : EmitAcc :=
  if !(acc.2.contains k) && shouldIncludeValue k (src k) then
    (acc.1 ++ [renderLine k (src k).interp], acc.2 ++ [k])
  else acc

/-- Run one emission segment over the accumulated lines and seen set. -/
def runSeg (acc : EmitAcc) : Seg → EmitAcc
  | .plain src keys => keys.foldl (pushPlain src) acc
  | .guarded src keys => keys.foldl (pushGuarded src) acc
  | .toggle n =>
      if !(acc.2.contains n) then (acc.1 ++ [renderLine n "true"], acc.2 ++ [n])
      else acc
  | .raw ls => (acc.1 ++ ls, acc.2)

/-- Split a character list at newlines, as `split('\n')` does (an empty
text yields one empty line). -/
def splitNewlines : List Char → List (List Char)
  | [] => [[]]
  | '\n' :: r => [] :: splitNewlines r
  | c :: r =>
    match splitNewlines r with
    | h :: t => (c :: h) :: t
    | [] => [[c]]

/-- Whitespace predicate used to model `line.trim()` truthiness: a line
survives exactly when it has a non-whitespace character. -/
def isBlankLine (l : List Char) : Bool := l.dropWhile Char.isWhitespace = []

/-- The raw `ADDITIONAL_ENV` pass-through: split on newlines, keep
non-blank lines verbatim. -/
def additionalLines (s : String) : List String :=
  ((splitNewlines s.toList).filter (fun l => !isBlankLine l)).map String.mk

/-- The `anyServiceEnabled` disjunction of `buildEnvFile`. -/
def anyServiceEnabled (d : DockerConfig) : Bool :=
  d.enableBundler || d.enableAoCu || d.enableGrafana || d.enableDashboard ||
  d.enableClickhouse || d.enableLitestream || d.enableAutoheal

/-- The ordered list of emission segments of `buildEnvFile`, one per guarded
block of the source, in source order. -/
def segments (c : DeploymentConfig) : List Seg :=
  [Seg.plain c.nodeConfig coreNodeConfigs]
  ++ (if c.dockerConfig.enableBundler then
        [Seg.plain c.nodeConfig bundlerNodeKeys] else [])
  ++ (if c.dockerConfig.useEnvoy then
        [Seg.guarded c.dashboardConfig envoyKeys] else [])
  ++ (if anyServiceEnabled c.dockerConfig then
        [Seg.guarded c.dashboardConfig redisKeys] else [])
  ++ (if (c.dashboardConfig "ENABLE_CLICKHOUSE").truthy then
        [Seg.guarded c.dashboardConfig clickhouseKeys] else [])
  ++ (if (c.dashboardConfig "ENABLE_LITESTREAM").truthy then
        [Seg.guarded c.dashboardConfig litestreamKeys] else [])
  ++ (if (c.nodeConfig "ADDITIONAL_ENV").truthy then
        [Seg.raw (additionalLines (c.nodeConfig "ADDITIONAL_ENV").interp)] else [])
  ++ (if anyServiceEnabled c.dockerConfig || c.dockerConfig.useEnvoy then
        [Seg.guarded c.nodeConfig ["CORE_PORT"]]
        ++ (if c.dockerConfig.useEnvoy then
              [Seg.guarded c.dashboardConfig ["ENVOY_PORT"]] else [])
        ++ (if c.dockerConfig.enableDashboard then
              [Seg.guarded c.dashboardConfig adminKeys] else [])
      else [])
  ++ (if c.dockerConfig.enableBundler then
        [Seg.guarded c.dashboardConfig bundlerKeys] else [])
  ++ (if c.dockerConfig.enableAoCu then
        [Seg.guarded c.dashboardConfig aoCuKeys] else [])
  ++ (if c.dockerConfig.enableGrafana then
        [Seg.guarded c.dashboardConfig ["GRAFANA_PORT"]] else [])
  ++ (if c.dockerConfig.enableClickhouse then
        [Seg.guarded c.dashboardConfig ["CLICKHOUSE_PORT"]] else [])
  ++ (if c.dockerConfig.enableDashboard then
        [Seg.guarded c.dashboardConfig ["DASHBOARD_PORT"]] else [])
  ++ (if c.dockerConfig.enableSsl then
        [Seg.guarded c.dashboardConfig sslKeys] else [])
  ++ (if c.dockerConfig.enableAoCu then [Seg.toggle "ENABLE_AO_CU"] else [])
  ++ (if c.dockerConfig.enableGrafana then [Seg.toggle "ENABLE_GRAFANA"] else [])
  ++ (if c.dockerConfig.enableDashboard then [Seg.toggle "ENABLE_DASHBOARD"] else [])
  ++ (if c.dockerConfig.enableClickhouse then [Seg.toggle "ENABLE_CLICKHOUSE"] else [])
  ++ (if c.dockerConfig.enableLitestream then [Seg.toggle "ENABLE_LITESTREAM"] else [])
  ++ (if c.dockerConfig.enableAutoheal then [Seg.toggle "ENABLE_AUTOHEAL"] else [])
  ++ (if anyServiceEnabled c.dockerConfig then
        [Seg.guarded c.dashboardConfig redisKeys] else [])

/-- The `lines` array produced by `buildEnvFile(config)`. -/
def buildEnvFileLines (c : DeploymentConfig) : List String :=
  ((segments c).foldl runSeg ([], [])).1

/-- The full text returned by `buildEnvFile(config)`: the lines joined with
newlines (`lines.join('\n')`). -/
def buildEnvFile (c : DeploymentConfig) : String :=
  String.intercalate "\n" (buildEnvFileLines c)

/-- The `servicesToStart` list assembled in `app.post('/deploy')`: the
mandatory `core` and `redis` services followed by the optional services
whose gates are set, in source order. -/
def servicesToStart (c : DeploymentConfig) : List String :=
  ["core", "redis"]
  ++ (if (c.dashboardConfig "ENABLE_ENVOY").truthy then ["envoy"] else [])
  ++ (if (c.nodeConfig "RUN_OBSERVER").truthy then ["observer"] else [])
  ++ (if c.dockerConfig.enableAutoheal then ["autoheal"] else [])
  ++ (if c.dockerConfig.enableClickhouse then
        ["clickhouse", "clickhouse-auto-import"] else [])
  ++ (if c.dockerConfig.enableLitestream then ["litestream"] else [])
  ++ (if c.dockerConfig.enableBundler then
        ["upload-service", "fulfillment-service", "upload-service-pg",
         "localstack"] else [])
  ++ (if c.dockerConfig.enableAoCu then ["ao-cu"] else [])
  ++ (if c.dockerConfig.enableGrafana then
        ["prometheus", "grafana", "node-exporter"] else [])
  ++ (if c.dockerConfig.enableDashboard then ["admin-dashboard"] else [])

/-- The AWS-related key list appended conditionally to `.env.bundler`. -/
def awsBundlerKeys : List String :=
  ["AWS_S3_CONTIGUOUS_DATA_BUCKET", "AWS_S3_CONTIGUOUS_DATA_PREFIX",
   "AWS_ACCESS_KEY_ID", "AWS_SECRET_ACCESS_KEY", "AWS_REGION", "AWS_ENDPOINT"]

/-- The `bundlerLines` array written to `.env.bundler` when the bundler is
enabled: five unconditional lines, then each AWS key whose dashboard value
is truthy, pushed verbatim with no deny-list filtering. -/
def buildBundlerEnvLines (dd : EnvMap) (bundlerAddress : String) : List String :=
  [renderLine "BUNDLER_ARWEAVE_WALLET" (dd "BUNDLER_ARWEAVE_WALLET").interp,
   renderLine "BUNDLER_ARWEAVE_ADDRESS" bundlerAddress,
   renderLine "APP_NAME" (dd "APP_NAME").interp,
   renderLine "ANS104_INDEX_FILTER" (dd "ANS104_INDEX_FILTER").interp,
   renderLine "ANS104_UNBUNDLE_FILTER" (dd "ANS104_UNBUNDLE_FILTER").interp]
  ++ awsBundlerKeys.foldl
      (fun ls k => if (dd k).truthy then ls ++ [renderLine k (dd k).interp] else ls)
      []

/-- The `.env.bundler` text (`bundlerLines.join('\n')`). -/
def buildBundlerEnv (dd : EnvMap) (bundlerAddress : String) : String :=
  String.intercalate "\n" (buildBundlerEnvLines dd bundlerAddress)

/-!
Server state model. The module-level mutable state of `server/index.js`
(`deploymentLogs`, `currentDeploymentProcess`, `deploymentCancelled`)
together with an environment model of the orchestration child processes:
`running` holds the pids of spawned orchestration CLI processes that have
not yet exited, `signals` records termination signals sent via `kill`,
`downs` counts spawned best-effort `docker compose down` helpers, and
`time` drives the log timestamps.
-/

/-- Process-wide server state plus the child-process environment. -/
structure ServerState where
  logs : List String
  current : Option Nat
  cancelled : Bool
  running : List Nat
  nextPid : Nat
  signals : List Nat
  downs : Nat
  time : Nat
deriving DecidableEq, Repr

/-- The state at server start: empty log buffer, no tracked process. -/
def initialState : ServerState :=
  { logs := [], current := none, cancelled := false, running := [],
    nextPid := 1, signals := [], downs := 0, time := 0 }

/-- The `appendLog` helper: push one timestamped line onto the log buffer. -/
def ServerState.appendLog (s : ServerState) (msg : String) : ServerState :=
  { s with logs := s.logs ++ ["[" ++ toString s.time ++ "] " ++ msg],
           time := s.time + 1 }

/-- Response of `POST /deploy`: `{status:'started'}` (200), a 400 on a
missing config, or a 500 from the catch handler. -/
inductive DeployResponse where
  | started
  | missingConfig
  | serverError
deriving DecidableEq, Repr

/-- HTTP status code of a deploy response. -/
def DeployResponse.httpStatus : DeployResponse → Nat
  | .started => 200
  | .missingConfig => 400
  | .serverError => 500

/-- Response of `POST /cancel`: both outcomes are sent with `res.json`,
hence HTTP 200. -/
inductive CancelResponse where
  | cancelled
  | noDeploymentRunning
deriving DecidableEq, Repr

/-- HTTP status code of a cancel response (always success). -/
def CancelResponse.httpStatus : CancelResponse → Nat
  | .cancelled => 200
  | .noDeploymentRunning => 200

/-- Spawn the orchestration CLI (`spawn('docker', allArgs)`) and track it:
the new child joins the running set and overwrites
`currentDeploymentProcess`; the request is answered with
`{status:'started'}`. -/
def spawnCompose (s : ServerState) : ServerState × DeployResponse :=
  let s := s.appendLog "Starting all services"
  let p := s.nextPid
  ({ s with current := some p, running := p :: s.running, nextPid := p + 1 },
   .started)

/-- The `POST /deploy` handler. Parameters are the environment outcomes the
handler observes: whether the body carries a config, whether the working
copy already exists, whether the in-place git update exits 0, and whether a
git clone (attempted only when no working copy exists) exits 0. A failed
update leaves the directory in place, so the re-check
`stillNeedsClone` stays false and no clone is attempted; a failed clone
rejects the awaited promise and lands in the catch handler, which answers
HTTP 500. Note that the handler consults neither `currentDeploymentProcess`
nor `running` before spawning. -/
def deployStep (hasConfig repoExists updateOk cloneOk : Bool)
    (s : ServerState) : ServerState × DeployResponse :=
  if !hasConfig then (s, .missingConfig)
  else
    let s := s.appendLog "Received deployment request"
    let s := { s with cancelled := false }
    let s := s.appendLog "Fetching latest AR.IO node version..."
    if repoExists then
      let s := s.appendLog "Repository exists, updating to latest version..."
      let s :=
        if updateOk then s.appendLog "Repository updated successfully"
        else (s.appendLog "Git update failed").appendLog
               "Falling back to fresh clone..."
      spawnCompose s
    else
      let s := s.appendLog "Cloning AR.IO node repository..."
      if cloneOk then
        spawnCompose (s.appendLog "Repository cloned successfully")
      else
        let s := s.appendLog "Git clone failed"
        let s := s.appendLog "Deployment error: Git clone failed"
        (s, .serverError)

/-- The `POST /cancel` handler: set the cancellation flag; if a process is
tracked, signal it (`kill('SIGTERM')`), spawn a best-effort
`docker compose down`, and answer `cancelled`; otherwise answer
`no_deployment_running`. The tracked reference is not cleared here (only
the close event clears it). -/
def cancelStep (s : ServerState) : ServerState × CancelResponse :=
  let s := s.appendLog "Cancel deployment requested"
  let s := { s with cancelled := true }
  match s.current with
  | some p =>
    let s := s.appendLog "Killing deployment process..."
    let s := { s with signals := s.signals ++ [p] }
    let s := s.appendLog "Deployment process terminated"
    let s := { s with downs := s.downs + 1 }
    (s, .cancelled)
  | none =>
    let s := s.appendLog "No deployment process running, marking as cancelled anyway"
    (s, .noDeploymentRunning)

/-- The `GET /logs` handler: the full accumulated log buffer, verbatim. -/
def getLogsResponse (s : ServerState) : List String := s.logs

/-- An output chunk arriving from the tracked child: appended to the log
unless the cancellation flag is set. -/
def childOutputStep (line : String) (s : ServerState) : ServerState :=
  if s.cancelled then s else s.appendLog line

/-- The `close` event of a spawned orchestration process `p` with exit code
`code`: log (suppressed variant when cancelled), drop `p` from the running
set, and clear the tracked reference. -/
def procExitStep (p : Nat) (code : Int) (s : ServerState) : ServerState :=
  let s :=
    if s.cancelled then s.appendLog "Deployment was cancelled"
    else s.appendLog ("docker compose exited with code " ++ toString code)
  { s with current := none, running := s.running.erase p }

/-- One externally observable operation on the server. -/
inductive ServerOp where
  | deploy (hasConfig repoExists updateOk cloneOk : Bool)
  | cancel
  | getLogs
  | getStatus (raw : String)
  | childOutput (line : String)
  | procExit (p : Nat) (code : Int)

/-- State effect of one operation (`GET /logs` and `GET /status` read
without writing). -/
def applyOp : ServerOp → ServerState → ServerState
  | .deploy h r u c, s => (deployStep h r u c s).1
  | .cancel, s => (cancelStep s).1
  | .getLogs, s => s
  | .getStatus _, s => s
  | .childOutput l, s => childOutputStep l s
  | .procExit p code, s => procExitStep p code s

/-!
Manifest patcher. The regex rewrites of `fixPortMappings` and the Grafana
compose transforms of the deploy handler are embedded as executable text
rewriting over character lists. Each JavaScript regex used by the source is
deterministic in the sense that greedy matching with backtracking is
equivalent to maximal-run scanning, which is what the matchers below
implement; `String.prototype.replace` with a regex and the `g` flag becomes
`replaceAllM` (leftmost match, resume after the replaced span), and
`replace` with a plain string pattern becomes `replaceFirstL` (first
occurrence only).
-/

/-- ASCII whitespace as matched by the JavaScript `\s` class (the source
texts are ASCII). -/
def isSpaceJS (c : Char) : Bool :=
  c = ' ' || c = '\t' || c = '\n' || c = '\r' || c = '\x0b' || c = '\x0c'

/-- A single or double quote, the `["']` class of the port regexes. -/
def isQuoteCh (c : Char) : Bool := c = '"' || c = '\''

/-- ASCII letter, the `[a-zA-Z]` class. -/
def isAsciiLetter (c : Char) : Bool :=
  ('a' ≤ c && c ≤ 'z') || ('A' ≤ c && c ≤ 'Z')

/-- Length of the maximal prefix whose characters satisfy `p`. -/
def takeRun (p : Char → Bool) : List Char → Nat
  | [] => 0
  | c :: r => if p c then takeRun p r + 1 else 0

/-- A matcher: given a suffix of the text, decide whether a match starts at
its head, returning the matched length (always positive for the matchers
below) and the replacement text. -/
def Matcher : Type := List Char → Option (Nat × List Char)

/-- Scan the text left to right; at each position either rewrite a match
and resume after it, or copy one character — the semantics of a global
regex `replace`. Fuel is the remaining text length. -/
def replaceScan (m : Matcher) : Nat → List Char → List Char
  | 0, s => s
  | _ + 1, [] => []
  | fuel + 1, c :: rest =>
    match m (c :: rest) with
    | some (n, repl) => repl ++ replaceScan m fuel ((c :: rest).drop (max n 1))
    | none => c :: replaceScan m fuel rest

/-- Global regex replacement over a character list. -/
def replaceAllM (m : Matcher) (s : List Char) : List Char :=
  replaceScan m s.length s

/-- `String.prototype.replace` with a plain (non-regex) pattern: replace
only the first occurrence, leave the text unchanged when absent. -/
def replaceFirstL (pat repl : List Char) : List Char → List Char
  | [] => []
  | c :: rest =>
    if pat.isPrefixOf (c :: rest) then repl ++ (c :: rest).drop pat.length
    else c :: replaceFirstL pat repl rest

/-- Matcher for the single-line port regex `["']?\d+:PORT["']?`. -/
def matchPortSingle (port : List Char) (s : List Char) : Option Nat :=
  let q1 : Nat := match s with
    | c :: _ => if isQuoteCh c then 1 else 0
    | [] => 0
  let s1 := s.drop q1
  let d := takeRun Char.isDigit s1
  if d = 0 then none
  else
    let s2 := s1.drop d
    if (':' :: port).isPrefixOf s2 then
      let s3 := s2.drop (port.length + 1)
      let q2 : Nat := match s3 with
        | c :: _ => if isQuoteCh c then 1 else 0
        | [] => 0
      some (q1 + d + 1 + port.length + q2)
    else none

/-- Matcher for the multi-line port regex
`ports:\s*\n\s*-\s*["']?\d+:PORT["']?`: the literal `ports:`, a whitespace
run containing a newline, a dash, more whitespace, then the single-line
pattern. -/
def matchPortsBlock (port : List Char) (s : List Char) : Option Nat :=
  if "ports:".toList.isPrefixOf s then
    let s1 := s.drop 6
    let w := takeRun isSpaceJS s1
    if (s1.take w).contains '\n' then
      match s1.drop w with
      | '-' :: s3 =>
        let w2 := takeRun isSpaceJS s3
        match matchPortSingle port (s3.drop w2) with
        | some n => some (6 + w + 1 + w2 + n)
        | none => none
      | _ => none
    else none
  else none

/-- One multi-line port rewrite of `fixPortMappings`. -/
def replacePortsBlock (port repl : String) (s : List Char) : List Char :=
  replaceAllM (fun t => (matchPortsBlock port.toList t).map (fun n => (n, repl.toList))) s

/-- One single-line port rewrite of `fixPortMappings`. -/
def replacePortSingle (port repl : String) (s : List Char) : List Char :=
  replaceAllM (fun t => (matchPortSingle port.toList t).map (fun n => (n, repl.toList))) s

/-- The `fixPortMappings` helper: six multi-line rewrites followed by six
single-line rewrites, in source order. -/
def fixPortMappings (s : String) : String :=
  let t := s.toList
  let t := replacePortsBlock "3000" "ports:\n      - \"${ENVOY_PORT:-3000}:3000\"" t
  let t := replacePortsBlock "4000" "ports:\n      - \"${CORE_PORT:-4000}:4000\"" t
  let t := replacePortsBlock "5050" "ports:\n      - \"${OBSERVER_PORT:-5050}:5050\"" t
  let t := replacePortsBlock "8123" "ports:\n      - \"${CLICKHOUSE_PORT_2:-8123}:8123\"" t
  let t := replacePortsBlock "8443" "ports:\n      - \"${CLICKHOUSE_PORT_3:-8443}:8443\"" t
  let t := replacePortsBlock "9000" "ports:\n      - \"${CLICKHOUSE_PORT:-9000}:9000\"" t
  let t := replacePortSingle "3000" "\"${ENVOY_PORT:-3000}:3000\"" t
  let t := replacePortSingle "4000" "\"${CORE_PORT:-4000}:4000\"" t
  let t := replacePortSingle "5050" "\"${OBSERVER_PORT:-5050}:5050\"" t
  let t := replacePortSingle "8123" "\"${CLICKHOUSE_PORT_2:-8123}:8123\"" t
  let t := replacePortSingle "8443" "\"${CLICKHOUSE_PORT_3:-8443}:8443\"" t
  let t := replacePortSingle "9000" "\"${CLICKHOUSE_PORT:-9000}:9000\"" t
  String.mk t

/-- Matcher for the Grafana network regex
`networks:\s*\n\s*ar-io-network:\s*\n\s*external:\s*true`. -/
def matchNetworkExternal (s : List Char) : Option Nat :=
  if "networks:".toList.isPrefixOf s then
    let s1 := s.drop 9
    let w1 := takeRun isSpaceJS s1
    if (s1.take w1).contains '\n' then
      let s2 := s1.drop w1
      if "ar-io-network:".toList.isPrefixOf s2 then
        let s3 := s2.drop 14
        let w2 := takeRun isSpaceJS s3
        if (s3.take w2).contains '\n' then
          let s4 := s3.drop w2
          if "external:".toList.isPrefixOf s4 then
            let s5 := s4.drop 9
            let w3 := takeRun isSpaceJS s5
            if "true".toList.isPrefixOf (s5.drop w3) then
              some (9 + w1 + 14 + w2 + 9 + w3 + 4)
            else none
          else none
        else none
      else none
    else none
  else none

/-- Length of the prefix of `l` up to and including its last newline
(zero when `l` has no newline). -/
def upToLastNewline (l : List Char) : Nat :=
  l.length - takeRun (fun c => c ≠ '\n') l.reverse

/-- Matcher for `\s*volumes:\s*\n(\s*\n)+`: optional leading whitespace,
the literal `volumes:`, then a whitespace run containing at least two
newlines, consumed up to its last newline. -/
def matchEmptyVolumes (s : List Char) : Option Nat :=
  let w0 := takeRun isSpaceJS s
  let s1 := s.drop w0
  if "volumes:".toList.isPrefixOf s1 then
    let s2 := s1.drop 8
    let w := takeRun isSpaceJS s2
    let ws := s2.take w
    if 2 ≤ ws.count '\n' then some (w0 + 8 + upToLastNewline ws)
    else none
  else none

/-- Matcher for `\s*volumes:\s*\n(\s*)([a-zA-Z])` with replacement
`\n$1$2`: the whitespace after `volumes:` must contain a newline and be
followed by a letter; the replacement keeps one newline, the whitespace
after the last newline, and the letter. -/
def matchVolumesNext (s : List Char) : Option (Nat × List Char) :=
  let w0 := takeRun isSpaceJS s
  let s1 := s.drop w0
  if "volumes:".toList.isPrefixOf s1 then
    let s2 := s1.drop 8
    let w := takeRun isSpaceJS s2
    let ws := s2.take w
    if ws.contains '\n' then
      let k := upToLastNewline ws
      let g1 := ws.drop k
      match s2.drop w with
      | c :: _ =>
        if isAsciiLetter c then some (w0 + 8 + w + 1, '\n' :: (g1 ++ [c]))
        else none
      | [] => none
    else none
  else none

/-- The prometheus bind-mount line removed from the Grafana compose file. -/
def prometheusMountLine : String :=
  "      - ./prometheus.yml:/etc/prometheus/prometheus.yml"

/-- The Grafana compose transform of the deploy handler: port rewrites,
network de-externalization, first-occurrence removal of the prometheus
mount line, collapse of empty `volumes:` blocks, and collapse of a
`volumes:` header directly followed by another section. -/
def grafanaComposeTransform (s : String) : String :=
  let t := (fixPortMappings s).toList
  let t := replaceAllM
    (fun u => (matchNetworkExternal u).map
      (fun n => (n, "networks:\n  ar-io-network:".toList))) t
  let t := replaceFirstL prometheusMountLine.toList [] t
  let t := replaceAllM
    (fun u => (matchEmptyVolumes u).map (fun n => (n, ['\n']))) t
  let t := replaceAllM matchVolumesNext t
  String.mk t

/-- Emission soundness for one key and rendered value: the value differs
from the key's deny-listed default, when the key has one. -/
def EmittedOK (k v : String) : Prop := ∀ d, defaultValueFor k = some d → v ≠ d

/-- Provenance of one line from one emission segment. -/
def LineFrom : Seg → String → Prop
  | .plain src keys, l =>
      ∃ k, k ∈ keys ∧ (src k).nonEmpty = true ∧ l = renderLine k (src k).interp
  | .guarded src keys, l =>
      ∃ k, k ∈ keys ∧ shouldIncludeValue k (src k) = true ∧
        l = renderLine k (src k).interp
  | .toggle n, l => l = renderLine n "true"
  | .raw ls, l => l ∈ ls

/-- Keys a segment can emit. -/
def segKeys : Seg → List String
  | .plain _ keys => keys
  | .guarded _ keys => keys
  | .toggle n => [n]
  | .raw _ => []

/-- All keys the generator can emit for a given configuration: the keys of
its active segments. -/
def activeKeys (c : DeploymentConfig) : List String :=
  ((segments c).map segKeys).flatten

/-- Helper to build a concrete configuration map from a pair list. -/
def mapOf (l : List (String × JVal)) : EnvMap := fun k =>
  match l.find? (fun p => p.1 = k) with
  | some p => p.2
  | none => JVal.undef

/-- A docker configuration with every optional service disabled. -/
def dockerAllOff : DockerConfig :=
  { useEnvoy := false, enableBundler := false, enableAoCu := false,
    enableGrafana := false, enableDashboard := false, enableClickhouse := false,
    enableLitestream := false, enableAutoheal := false, enableSsl := false }

/-- A server state with a tracked, still-running deployment process (pid 7). -/
def busyState : ServerState :=
  { logs := [], current := some 7, cancelled := false, running := [7],
    nextPid := 8, signals := [], downs := 0, time := 3 }

/-- Gate-abstracted form of the service list, for exhaustive boolean
reasoning. -/
def servicesOf (envoy observer autoheal clickhouse litestream bundler
    aoCu grafana dashboard : Bool) : List String :=
  ["core", "redis"]
  ++ (if envoy then ["envoy"] else [])
  ++ (if observer then ["observer"] else [])
  ++ (if autoheal then ["autoheal"] else [])
  ++ (if clickhouse then ["clickhouse", "clickhouse-auto-import"] else [])
  ++ (if litestream then ["litestream"] else [])
  ++ (if bundler then
        ["upload-service", "fulfillment-service", "upload-service-pg",
         "localstack"] else [])
  ++ (if aoCu then ["ao-cu"] else [])
  ++ (if grafana then ["prometheus", "grafana", "node-exporter"] else [])
  ++ (if dashboard then ["admin-dashboard"] else [])

/-- A configuration with only the mandatory services. -/
def mandatoryOnlyConfig : DeploymentConfig :=
  { nodeConfig := mapOf [("AR_IO_WALLET", .str "w")],
    dashboardConfig := mapOf [], dockerConfig := dockerAllOff }

/-- The deny-listed placeholder lines themselves. -/
def denyLines : List String := denyPairs.map (fun p => renderLine p.1 p.2)

/-- A configuration whose only content is a raw `ADDITIONAL_ENV` line
holding a deny-listed placeholder pair. -/
def additionalEnvLeakConfig : DeploymentConfig :=
  { nodeConfig := mapOf [("ADDITIONAL_ENV", .str "AWS_ACCESS_KEY_ID=test")],
    dashboardConfig := mapOf [], dockerConfig := dockerAllOff }

/-- A benign configuration with the bundler enabled and placeholder AWS
credentials. -/
def bundlerPlaceholderConfig : DeploymentConfig :=
  { nodeConfig := mapOf [("AR_IO_WALLET", .str "w")],
    dashboardConfig := mapOf [("AWS_ACCESS_KEY_ID", .str "test")],
    dockerConfig := { dockerAllOff with enableBundler := true } }

/-- The key of a `KEY=VALUE` line: everything before the first `=`. -/
def envKey (l : String) : String :=
  String.mk (l.data.takeWhile (fun c => c ≠ '='))

/-- Well-formedness of every key the generator can emit: no `=` inside, and
the first character is not the comment marker. -/
def KeyWF (k : String) : Prop := '=' ∉ k.data ∧ k.data.head? ≠ some '#'

instance (k : String) : Decidable (KeyWF k) := by
  unfold KeyWF
  infer_instance

/-- Keys emitted to the main env file only for the bundler service. -/
def bundlerOnlyKeys : List String :=
  ["BUNDLER_ARWEAVE_WALLET", "BUNDLER_ARWEAVE_ADDRESS", "APP_NAME",
   "ANS104_INDEX_FILTER", "ANS104_UNBUNDLE_FILTER", "GATEWAY_URL",
   "UPLOADER_URL", "AWS_S3_CONTIGUOUS_DATA_BUCKET",
   "AWS_S3_CONTIGUOUS_DATA_PREFIX", "AWS_ACCESS_KEY_ID",
   "AWS_SECRET_ACCESS_KEY", "AWS_REGION", "AWS_ENDPOINT",
   "ALLOW_LISTED_ADDRESSES"]

/-- Keys emitted to the main env file only for the AO compute unit. -/
def aoCuOnlyKeys : List String :=
  ["CU_WALLET", "PROCESS_CHECKPOINT_TRUSTED_OWNERS", "ADDITIONAL_AO_CU_ENV",
   "ENABLE_AO_CU"]

/-- Keys emitted to the main env file only for Grafana. -/
def grafanaOnlyKeys : List String :=
  ["GRAFANA_PORT", "ENABLE_GRAFANA"]

/-- Keys emitted to the main env file only for the admin dashboard. -/
def dashboardOnlyKeys : List String :=
  ["DASHBOARD_PORT", "ADMIN_USERNAME", "ADMIN_PASSWORD", "ENABLE_DASHBOARD"]

/-- Keys emitted to the main env file only for ClickHouse. -/
def clickhouseOnlyKeys : List String :=
  clickhouseKeys ++ ["ENABLE_CLICKHOUSE"]

/-- Keys emitted to the main env file only for Litestream. -/
def litestreamOnlyKeys : List String :=
  litestreamKeys ++ ["ENABLE_LITESTREAM"]

/-- A configuration with Grafana disabled whose `ADDITIONAL_ENV` smuggles a
Grafana key into the env file. -/
def grafanaLeakConfig : DeploymentConfig :=
  { nodeConfig := mapOf [("ADDITIONAL_ENV", .str "GRAFANA_PORT=1024")],
    dashboardConfig := mapOf [], dockerConfig := dockerAllOff }

/-- A Grafana compose text carrying two copies of the prometheus mount
line. -/
def twoMountsText : String :=
  "    volumes:\n      - ./prometheus.yml:/etc/prometheus/prometheus.yml\n      - ./prometheus.yml:/etc/prometheus/prometheus.yml\n"

/-- A representative Grafana compose fragment: numeric port bindings, an
external network stanza, and one prometheus mount line. -/
def grafanaSampleText : String :=
  "services:\n  grafana:\n    image: grafana/grafana\n    ports:\n      - 3000:3000\n    volumes:\n      - ./prometheus.yml:/etc/prometheus/prometheus.yml\n\n  clickhouse:\n    ports:\n      - \"9000:9000\"\n      - \"8123:8123\"\n\nnetworks:\n  ar-io-network:\n    external: true\n"

/-- A compose fragment whose port bindings are already in substituted
form. -/
def substitutedPortsText : String :=
  "ports:\n      - \"${ENVOY_PORT:-3000}:3000\"\n      - \"${CORE_PORT:-4000}:4000\"\n      - \"${OBSERVER_PORT:-5050}:5050\"\n      - \"${CLICKHOUSE_PORT:-9000}:9000\"\n"

/-- A dashboard configuration carrying the placeholder AWS credentials and
an empty bundler wallet. -/
def placeholderAwsDD : EnvMap :=
  mapOf [("AWS_ACCESS_KEY_ID", .str "test"), ("AWS_SECRET_ACCESS_KEY", .str "test"),
         ("BUNDLER_ARWEAVE_WALLET", .str "")]

/-!
Lemma layer and claim theorems.
-/

lemma defaultValueFor_mem {k d : String} (h : defaultValueFor k = some d) :
    (k, d) ∈ denyPairs := by
  unfold defaultValueFor at h
  cases hf : denyPairs.find? (fun p => p.1 = k) with
  | none => rw [hf] at h; cases h
  | some p =>
    rw [hf] at h
    have hm := List.mem_of_find?_eq_some hf
    have hp := List.find?_some hf
    simp only [Option.map_some', Option.some.injEq] at h
    simp only [decide_eq_true_eq] at hp
    cases p with
    | mk a b => cases hp; cases h; exact hm

lemma default_ne_interp_bool {k d : String} (h : defaultValueFor k = some d) :
    d ≠ "true" ∧ d ≠ "false" := by
  have hm := defaultValueFor_mem h
  simp only [denyPairs, List.mem_cons, Prod.mk.injEq, List.not_mem_nil,
    or_false] at hm
  rcases hm with ⟨rfl, rfl⟩ | ⟨rfl, rfl⟩ | ⟨rfl, rfl⟩ | ⟨rfl, rfl⟩ |
    ⟨rfl, rfl⟩ | ⟨rfl, rfl⟩ | ⟨rfl, rfl⟩ <;> exact ⟨by decide, by decide⟩

lemma emittedOK_of_guard {k : String} {v : JVal}
    (h : shouldIncludeValue k v = true) : EmittedOK k v.interp := by
  intro d hd
  unfold shouldIncludeValue at h
  rw [hd] at h
  split at h
  · simp at h
  · rename_i hne
    cases v with
    | undef => simp [JVal.nonEmpty] at hne
    | str s =>
      simp only [decide_eq_true_eq, ne_eq, JVal.str.injEq] at h
      simpa [JVal.interp] using h
    | bool b =>
      have h2 := default_ne_interp_bool hd
      cases b
      · exact fun hh => h2.2 hh.symm
      · exact fun hh => h2.1 hh.symm

lemma keyline_inj : ∀ (a : List Char) (x b y : List Char),
    '=' ∉ b → '=' ∉ y → a ++ '=' :: x = b ++ '=' :: y → a = b ∧ x = y := by
  intro a
  induction a with
  | nil =>
    intro x b y hb _ h
    cases b with
    | nil => simp at h; exact ⟨rfl, h⟩
    | cons c b2 =>
      simp at h
      exact absurd (h.1 ▸ List.mem_cons_self c b2) (h.1 ▸ hb)
  | cons c a2 ih =>
    intro x b y hb hy h
    cases b with
    | nil =>
      simp at h
      obtain ⟨rfl, h2⟩ := h
      exact absurd (h2 ▸ (List.mem_append.mpr (Or.inr (List.mem_cons_self _ _)))) hy
    | cons d b2 =>
      simp only [List.cons_append, List.cons.injEq] at h
      obtain ⟨rfl, h2⟩ := h
      have hb2 : '=' ∉ b2 := fun hm => hb (List.mem_cons_of_mem _ hm)
      obtain ⟨rfl, rfl⟩ := ih x b2 y hb2 hy h2
      exact ⟨rfl, rfl⟩

lemma renderLine_data (k v : String) :
    (renderLine k v).data = k.data ++ '=' :: v.data := by
  show (k ++ "=" ++ v).data = _
  have h1 : (k ++ "=" ++ v).data = k.data ++ ('=' :: List.nil) ++ v.data := rfl
  simp [h1]

lemma renderLine_inj {k v K D : String} (hK : '=' ∉ K.data) (hD : '=' ∉ D.data)
    (h : renderLine k v = renderLine K D) : k = K ∧ v = D := by
  have h2 : k.data ++ '=' :: v.data = K.data ++ '=' :: D.data := by
    rw [← renderLine_data, ← renderLine_data, h]
  obtain ⟨h3, h4⟩ := keyline_inj _ _ _ _ hK hD h2
  exact ⟨String.ext h3, String.ext h4⟩

lemma mem_pushPlain {src : EnvMap} {acc : EmitAcc} {k : String} {l : String}
    (h : l ∈ (pushPlain src acc k).1) :
    l ∈ acc.1 ∨ ((src k).nonEmpty = true ∧ l = renderLine k (src k).interp) := by
  unfold pushPlain at h
  split at h
  · rename_i hc
    simp only [Bool.and_eq_true] at hc
    rcases List.mem_append.mp h with h1 | h1
    · exact Or.inl h1
    · exact Or.inr ⟨hc.1, List.mem_singleton.mp h1⟩
  · exact Or.inl h

lemma mem_pushGuarded {src : EnvMap} {acc : EmitAcc} {k : String} {l : String}
    (h : l ∈ (pushGuarded src acc k).1) :
    l ∈ acc.1 ∨ (shouldIncludeValue k (src k) = true ∧
      l = renderLine k (src k).interp) := by
  unfold pushGuarded at h
  split at h
  · rename_i hc
    simp only [Bool.and_eq_true] at hc
    rcases List.mem_append.mp h with h1 | h1
    · exact Or.inl h1
    · exact Or.inr ⟨hc.2, List.mem_singleton.mp h1⟩
  · exact Or.inl h

lemma mem_foldl_pushPlain {src : EnvMap} {l : String} :
    ∀ (keys : List String) (acc : EmitAcc),
    l ∈ (keys.foldl (pushPlain src) acc).1 →
    l ∈ acc.1 ∨ ∃ k, k ∈ keys ∧ (src k).nonEmpty = true ∧
      l = renderLine k (src k).interp := by
  intro keys
  induction keys with
  | nil => intro acc h; exact Or.inl h
  | cons k ks ih =>
    intro acc h
    rcases ih _ h with h1 | ⟨k2, hk2, hg, hl⟩
    · rcases mem_pushPlain h1 with h2 | ⟨hg, hl⟩
      · exact Or.inl h2
      · exact Or.inr ⟨k, List.mem_cons_self _ _, hg, hl⟩
    · exact Or.inr ⟨k2, List.mem_cons_of_mem _ hk2, hg, hl⟩

lemma mem_foldl_pushGuarded {src : EnvMap} {l : String} :
    ∀ (keys : List String) (acc : EmitAcc),
    l ∈ (keys.foldl (pushGuarded src) acc).1 →
    l ∈ acc.1 ∨ ∃ k, k ∈ keys ∧ shouldIncludeValue k (src k) = true ∧
      l = renderLine k (src k).interp := by
  intro keys
  induction keys with
  | nil => intro acc h; exact Or.inl h
  | cons k ks ih =>
    intro acc h
    rcases ih _ h with h1 | ⟨k2, hk2, hg, hl⟩
    · rcases mem_pushGuarded h1 with h2 | ⟨hg, hl⟩
      · exact Or.inl h2
      · exact Or.inr ⟨k, List.mem_cons_self _ _, hg, hl⟩
    · exact Or.inr ⟨k2, List.mem_cons_of_mem _ hk2, hg, hl⟩

lemma mem_runSeg {acc : EmitAcc} {sg : Seg} {l : String}
    (h : l ∈ (runSeg acc sg).1) : l ∈ acc.1 ∨ LineFrom sg l := by
  cases sg with
  | plain src keys =>
    simp only [runSeg] at h
    exact mem_foldl_pushPlain keys acc h
  | guarded src keys =>
    simp only [runSeg] at h
    exact mem_foldl_pushGuarded keys acc h
  | toggle n =>
    simp only [runSeg] at h
    split at h
    · rcases List.mem_append.mp h with h1 | h1
      · exact Or.inl h1
      · exact Or.inr (List.mem_singleton.mp h1)
    · exact Or.inl h
  | raw ls =>
    simp only [runSeg] at h
    rcases List.mem_append.mp h with h1 | h1
    · exact Or.inl h1
    · exact Or.inr h1

lemma mem_foldl_runSeg {l : String} :
    ∀ (segs : List Seg) (acc : EmitAcc),
    l ∈ (segs.foldl runSeg acc).1 →
    l ∈ acc.1 ∨ ∃ sg, sg ∈ segs ∧ LineFrom sg l := by
  intro segs
  induction segs with
  | nil => intro acc h; exact Or.inl h
  | cons sg sgs ih =>
    intro acc h
    rcases ih _ h with h1 | ⟨sg2, hsg2, hl⟩
    · rcases mem_runSeg h1 with h2 | h2
      · exact Or.inl h2
      · exact Or.inr ⟨sg, List.mem_cons_self _ _, h2⟩
    · exact Or.inr ⟨sg2, List.mem_cons_of_mem _ hsg2, hl⟩

lemma mem_buildEnvFileLines {c : DeploymentConfig} {l : String}
    (h : l ∈ buildEnvFileLines c) : ∃ sg, sg ∈ segments c ∧ LineFrom sg l := by
  unfold buildEnvFileLines at h
  rcases mem_foldl_runSeg _ _ h with h1 | h1
  · exact absurd h1 (List.not_mem_nil l)
  · exact h1

lemma mem_if_nil {α} {p : Prop} [Decidable p] {l : List α} {x : α} :
    x ∈ (if p then l else []) ↔ p ∧ x ∈ l := by
  split
  · rename_i hp; exact ⟨fun h => ⟨hp, h⟩, fun h => h.2⟩
  · rename_i hp; exact ⟨fun h => absurd h (List.not_mem_nil x),
      fun h => absurd h.1 hp⟩

lemma segments_elim {c : DeploymentConfig} (P : Seg → Prop)
    (h01 : P (.plain c.nodeConfig coreNodeConfigs))
    (h02 : c.dockerConfig.enableBundler = true →
      P (.plain c.nodeConfig bundlerNodeKeys))
    (h03 : c.dockerConfig.useEnvoy = true →
      P (.guarded c.dashboardConfig envoyKeys))
    (h04 : anyServiceEnabled c.dockerConfig = true →
      P (.guarded c.dashboardConfig redisKeys))
    (h05 : (c.dashboardConfig "ENABLE_CLICKHOUSE").truthy = true →
      P (.guarded c.dashboardConfig clickhouseKeys))
    (h06 : (c.dashboardConfig "ENABLE_LITESTREAM").truthy = true →
      P (.guarded c.dashboardConfig litestreamKeys))
    (h07 : (c.nodeConfig "ADDITIONAL_ENV").truthy = true →
      P (.raw (additionalLines (c.nodeConfig "ADDITIONAL_ENV").interp)))
    (h08 : (anyServiceEnabled c.dockerConfig || c.dockerConfig.useEnvoy) = true →
      P (.guarded c.nodeConfig ["CORE_PORT"]))
    (h09 : c.dockerConfig.useEnvoy = true →
      P (.guarded c.dashboardConfig ["ENVOY_PORT"]))
    (h10 : c.dockerConfig.enableDashboard = true →
      P (.guarded c.dashboardConfig adminKeys))
    (h11 : c.dockerConfig.enableBundler = true →
      P (.guarded c.dashboardConfig bundlerKeys))
    (h12 : c.dockerConfig.enableAoCu = true →
      P (.guarded c.dashboardConfig aoCuKeys))
    (h13 : c.dockerConfig.enableGrafana = true →
      P (.guarded c.dashboardConfig ["GRAFANA_PORT"]))
    (h14 : c.dockerConfig.enableClickhouse = true →
      P (.guarded c.dashboardConfig ["CLICKHOUSE_PORT"]))
    (h15 : c.dockerConfig.enableDashboard = true →
      P (.guarded c.dashboardConfig ["DASHBOARD_PORT"]))
    (h16 : c.dockerConfig.enableSsl = true →
      P (.guarded c.dashboardConfig sslKeys))
    (h17 : c.dockerConfig.enableAoCu = true → P (.toggle "ENABLE_AO_CU"))
    (h18 : c.dockerConfig.enableGrafana = true → P (.toggle "ENABLE_GRAFANA"))
    (h19 : c.dockerConfig.enableDashboard = true → P (.toggle "ENABLE_DASHBOARD"))
    (h20 : c.dockerConfig.enableClickhouse = true → P (.toggle "ENABLE_CLICKHOUSE"))
    (h21 : c.dockerConfig.enableLitestream = true → P (.toggle "ENABLE_LITESTREAM"))
    (h22 : c.dockerConfig.enableAutoheal = true → P (.toggle "ENABLE_AUTOHEAL")) :
    ∀ sg ∈ segments c, P sg := by
  intro sg hsg
  simp only [segments, List.mem_append, mem_if_nil, List.mem_singleton] at hsg
  repeat'
    first
    | (rcases hsg with hsg | hsg)
    | (rcases hsg with ⟨hg, hsg⟩)
  all_goals solve_by_elim

lemma core_no_default : ∀ k ∈ coreNodeConfigs, defaultValueFor k = none := by
  decide

/-- Every line of the generated env file, when the raw `ADDITIONAL_ENV`
pass-through is inactive, is a `KEY=VALUE` rendering of an active key whose
value differs from the key's deny-listed default. -/
lemma buildEnvFileLines_shape {c : DeploymentConfig} {l : String}
    (hAdd : (c.nodeConfig "ADDITIONAL_ENV").truthy = false)
    (h : l ∈ buildEnvFileLines c) :
    ∃ k v, l = renderLine k v ∧ k ∈ activeKeys c ∧ EmittedOK k v := by
  obtain ⟨sg, hsg, hlf⟩ := mem_buildEnvFileLines h
  have hkeys : ∀ k, k ∈ segKeys sg → k ∈ activeKeys c := fun k hk =>
    List.mem_flatten.mpr ⟨segKeys sg, List.mem_map_of_mem segKeys hsg, hk⟩
  revert hlf hkeys
  refine segments_elim
    (fun sg => LineFrom sg l → (∀ k, k ∈ segKeys sg → k ∈ activeKeys c) →
      ∃ k v, l = renderLine k v ∧ k ∈ activeKeys c ∧ EmittedOK k v)
    ?_ ?_ ?_ ?_ ?_ ?_ ?_ ?_ ?_ ?_ ?_ ?_ ?_ ?_ ?_ ?_ ?_ ?_ ?_ ?_ ?_ ?_ sg hsg
  all_goals
    first
    | (intro hlf hsub
       obtain ⟨k, hk, _, rfl⟩ := hlf
       refine ⟨k, _, rfl, hsub k hk, ?_⟩
       intro d hd
       rw [core_no_default k hk] at hd
       cases hd)
    | (intro _ hlf _
       obtain ⟨k, hk, _, _⟩ := hlf
       exact absurd hk (List.not_mem_nil k))
    | (intro hg
       rw [hAdd] at hg
       exact Bool.noConfusion hg)
    | (intro _ hlf hsub
       obtain ⟨k, hk, hg, rfl⟩ := hlf
       exact ⟨k, _, rfl, hsub k hk, emittedOK_of_guard hg⟩)
    | (intro _ hlf hsub
       subst hlf
       refine ⟨_, _, rfl, hsub _ (List.mem_singleton_self _), ?_⟩
       intro d hd
       exact fun hh => (default_ne_interp_bool hd).1 hh.symm)

lemma mem_activeKeys_elim {c : DeploymentConfig} {k : String}
    (h : k ∈ activeKeys c) : ∃ sg, sg ∈ segments c ∧ k ∈ segKeys sg := by
  unfold activeKeys at h
  obtain ⟨l2, hl2, hk⟩ := List.mem_flatten.mp h
  obtain ⟨sg, hsg, rfl⟩ := List.mem_map.mp hl2
  exact ⟨sg, hsg, hk⟩

/-- Generic exclusion: a key never appears among the generator's active
keys when every segment that could carry it is inactive. -/
lemma key_not_emitted (c : DeploymentConfig) (target : List String)
    (hcore : ∀ x ∈ coreNodeConfigs, x ∉ target)
    (hbn : c.dockerConfig.enableBundler = true → ∀ x ∈ bundlerNodeKeys, x ∉ target)
    (henv : c.dockerConfig.useEnvoy = true → ∀ x ∈ envoyKeys, x ∉ target)
    (hred : anyServiceEnabled c.dockerConfig = true → ∀ x ∈ redisKeys, x ∉ target)
    (hch : (c.dashboardConfig "ENABLE_CLICKHOUSE").truthy = true →
      ∀ x ∈ clickhouseKeys, x ∉ target)
    (hls : (c.dashboardConfig "ENABLE_LITESTREAM").truthy = true →
      ∀ x ∈ litestreamKeys, x ∉ target)
    (hcp : ∀ x ∈ ["CORE_PORT"], x ∉ target)
    (hep : c.dockerConfig.useEnvoy = true → ∀ x ∈ ["ENVOY_PORT"], x ∉ target)
    (hadm : c.dockerConfig.enableDashboard = true → ∀ x ∈ adminKeys, x ∉ target)
    (hbun : c.dockerConfig.enableBundler = true → ∀ x ∈ bundlerKeys, x ∉ target)
    (hao : c.dockerConfig.enableAoCu = true → ∀ x ∈ aoCuKeys, x ∉ target)
    (hgr : c.dockerConfig.enableGrafana = true → ∀ x ∈ ["GRAFANA_PORT"], x ∉ target)
    (hchp : c.dockerConfig.enableClickhouse = true →
      ∀ x ∈ ["CLICKHOUSE_PORT"], x ∉ target)
    (hdp : c.dockerConfig.enableDashboard = true →
      ∀ x ∈ ["DASHBOARD_PORT"], x ∉ target)
    (hssl : c.dockerConfig.enableSsl = true → ∀ x ∈ sslKeys, x ∉ target)
    (ht1 : c.dockerConfig.enableAoCu = true → ∀ x ∈ ["ENABLE_AO_CU"], x ∉ target)
    (ht2 : c.dockerConfig.enableGrafana = true →
      ∀ x ∈ ["ENABLE_GRAFANA"], x ∉ target)
    (ht3 : c.dockerConfig.enableDashboard = true →
      ∀ x ∈ ["ENABLE_DASHBOARD"], x ∉ target)
    (ht4 : c.dockerConfig.enableClickhouse = true →
      ∀ x ∈ ["ENABLE_CLICKHOUSE"], x ∉ target)
    (ht5 : c.dockerConfig.enableLitestream = true →
      ∀ x ∈ ["ENABLE_LITESTREAM"], x ∉ target)
    (ht6 : c.dockerConfig.enableAutoheal = true →
      ∀ x ∈ ["ENABLE_AUTOHEAL"], x ∉ target) :
    ∀ k ∈ activeKeys c, k ∉ target := by
  intro k hk
  obtain ⟨sg, hsg, hkseg⟩ := mem_activeKeys_elim hk
  revert hkseg
  refine segments_elim (fun sg => k ∈ segKeys sg → k ∉ target)
    ?_ ?_ ?_ ?_ ?_ ?_ ?_ ?_ ?_ ?_ ?_ ?_ ?_ ?_ ?_ ?_ ?_ ?_ ?_ ?_ ?_ ?_ sg hsg
  · intro hks; exact hcore k hks
  · intro hg hks; exact hbn hg k hks
  · intro hg hks; exact henv hg k hks
  · intro hg hks; exact hred hg k hks
  · intro hg hks; exact hch hg k hks
  · intro hg hks; exact hls hg k hks
  · intro _ hks; exact absurd hks (List.not_mem_nil k)
  · intro hg hks; exact hcp k hks
  · intro hg hks; exact hep hg k hks
  · intro hg hks; exact hadm hg k hks
  · intro hg hks; exact hbun hg k hks
  · intro hg hks; exact hao hg k hks
  · intro hg hks; exact hgr hg k hks
  · intro hg hks; exact hchp hg k hks
  · intro hg hks; exact hdp hg k hks
  · intro hg hks; exact hssl hg k hks
  · intro hg hks; exact ht1 hg k hks
  · intro hg hks; exact ht2 hg k hks
  · intro hg hks; exact ht3 hg k hks
  · intro hg hks; exact ht4 hg k hks
  · intro hg hks; exact ht5 hg k hks
  · intro hg hks; exact ht6 hg k hks

/-- C1 counterexample: a deploy request received while a deployment process
(pid 7) is still tracked is not rejected — it is answered with
`started` and a second orchestration process (pid 8) is spawned, so two
orchestration processes are running at once. -/
theorem deploy_counterexample_second_process :
    busyState.current = some 7 ∧
    (deployStep true true true true busyState).2 = .started ∧
    (deployStep true true true true busyState).1.running = [8, 7] := by
  refine ⟨rfl, ?_, ?_⟩ <;> rfl

/-- C1 (amended): `POST /deploy` accepts a request regardless of the
tracked process — on the success path it answers `started`, overwrites the
tracked reference with the freshly spawned process, leaves every
previously running process in the running set, and its response does not
depend on whether a process was tracked. -/
theorem deploy_accepts_while_running (s : ServerState) (u : Bool) :
    (deployStep true true u true s).2 = .started ∧
    (deployStep true true u true s).1.current = some s.nextPid ∧
    (deployStep true true u true s).1.running = s.nextPid :: s.running ∧
    (deployStep true true u true { s with current := none }).2 =
      (deployStep true true u true s).2 := by
  cases u <;> exact ⟨rfl, rfl, rfl, rfl⟩

/-- C5: failure asymmetry of repository provisioning — when the working
copy exists, the request is answered `started` whether or not the in-place
update succeeds (update failure is logged and the run continues), whereas
when the working copy is absent a failed clone aborts the request with an
HTTP 500 error response and a successful clone yields `started`. -/
theorem provisioning_failure_asymmetry (s : ServerState) (u c : Bool) :
    (deployStep true true u c s).2 = .started ∧
    (deployStep true false u false s).2 = .serverError ∧
    (deployStep true false u false s).2.httpStatus = 500 ∧
    (deployStep true false u true s).2 = .started := by
  cases u <;> cases c <;> exact ⟨rfl, rfl, rfl, rfl⟩

/-- C6: `POST /cancel` returns exactly one of two success outcomes,
determined by whether a deployment process is tracked — if one is tracked
the response is `cancelled` and that process receives a termination
signal; if none is tracked (including at server start, before any
deployment) the response is `no_deployment_running`; either way the HTTP
status is 200, never an error. -/
theorem cancel_two_outcomes (s : ServerState) :
    (∀ p, s.current = some p →
      (cancelStep s).2 = .cancelled ∧ p ∈ (cancelStep s).1.signals) ∧
    (s.current = none → (cancelStep s).2 = .noDeploymentRunning) ∧
    (cancelStep s).2.httpStatus = 200 ∧
    (cancelStep initialState).2 = .noDeploymentRunning := by
  refine ⟨?_, ?_, ?_, rfl⟩
  · intro p hp
    simp [cancelStep, ServerState.appendLog, hp]
  · intro hp
    simp [cancelStep, ServerState.appendLog, hp]
  · cases hc : s.current <;>
      simp [cancelStep, ServerState.appendLog, hc, CancelResponse.httpStatus]

/-- C6 witness: the cancel theorem evaluated at a state with tracked pid 7
and at the initial state. -/
theorem cancel_two_outcomes_witness :
    (cancelStep busyState).2 = .cancelled ∧ 7 ∈ (cancelStep busyState).1.signals ∧
    (cancelStep initialState).2 = .noDeploymentRunning :=
  ⟨((cancel_two_outcomes busyState).1 7 rfl).1,
   ((cancel_two_outcomes busyState).1 7 rfl).2,
   (cancel_two_outcomes initialState).2.2.2⟩

lemma logs_extend_trans {s t u : ServerState}
    (h1 : ∃ d, t.logs = s.logs ++ d) (h2 : ∃ d, u.logs = t.logs ++ d) :
    ∃ d, u.logs = s.logs ++ d := by
  obtain ⟨d1, h1⟩ := h1
  obtain ⟨d2, h2⟩ := h2
  exact ⟨d1 ++ d2, by rw [h2, h1, List.append_assoc]⟩

lemma logs_extend_appendLog (s : ServerState) (msg : String) :
    ∃ d, (s.appendLog msg).logs = s.logs ++ d := ⟨_, rfl⟩

lemma deployStep_logs_extend (h r u c : Bool) (s : ServerState) :
    ∃ d, (deployStep h r u c s).1.logs = s.logs ++ d := by
  cases h <;> cases r <;> cases u <;> cases c <;>
    exact ⟨_, by (simp [deployStep, spawnCompose, ServerState.appendLog,
      List.append_assoc]; try rfl)⟩

lemma cancelStep_logs_extend (s : ServerState) :
    ∃ d, (cancelStep s).1.logs = s.logs ++ d := by
  cases hc : s.current <;>
    exact ⟨_, by (simp [cancelStep, ServerState.appendLog, hc,
      List.append_assoc]; try rfl)⟩

/-- C9: the log sequence is append-only — every server operation (deploy,
cancel, status, log retrieval, child output, process exit) only extends
the log buffer, `GET /logs` returns the buffer verbatim, and any sequence
of operations (e.g. two consecutive deployment runs) yields a log that is
the earlier log extended with later lines, earlier lines first, with no
removal, reordering or truncation. -/
theorem logs_append_only (op : ServerOp) (s : ServerState) :
    (∃ d, (applyOp op s).logs = s.logs ++ d) ∧
    getLogsResponse s = s.logs ∧
    (∀ ops : List ServerOp,
      ∃ d, (ops.foldl (fun t o => applyOp o t) s).logs = s.logs ++ d) := by
  have hone : ∀ (o : ServerOp) (t : ServerState),
      ∃ d, (applyOp o t).logs = t.logs ++ d := by
    intro o t
    cases o with
    | deploy h r u c => exact deployStep_logs_extend h r u c t
    | cancel => exact cancelStep_logs_extend t
    | getLogs => exact ⟨[], by simp [applyOp]⟩
    | getStatus raw => exact ⟨[], by simp [applyOp]⟩
    | childOutput l =>
      by_cases hcan : t.cancelled = true
      · exact ⟨[], by simp [applyOp, childOutputStep, hcan]⟩
      · exact ⟨_, by (simp [applyOp, childOutputStep, hcan,
          ServerState.appendLog]; try rfl)⟩
    | procExit p code =>
      by_cases hcan : t.cancelled = true
      · exact ⟨_, by (simp [applyOp, procExitStep, hcan,
          ServerState.appendLog]; try rfl)⟩
      · exact ⟨_, by (simp [applyOp, procExitStep, hcan,
          ServerState.appendLog]; try rfl)⟩
  refine ⟨hone op s, rfl, ?_⟩
  intro ops
  induction ops generalizing s with
  | nil => exact ⟨[], by simp⟩
  | cons o os ih =>
    simp only [List.foldl_cons]
    exact logs_extend_trans (hone o s) (ih (applyOp o s))

lemma servicesToStart_eq_servicesOf (c : DeploymentConfig) :
    servicesToStart c =
      servicesOf (c.dashboardConfig "ENABLE_ENVOY").truthy
        (c.nodeConfig "RUN_OBSERVER").truthy
        c.dockerConfig.enableAutoheal c.dockerConfig.enableClickhouse
        c.dockerConfig.enableLitestream c.dockerConfig.enableBundler
        c.dockerConfig.enableAoCu c.dockerConfig.enableGrafana
        c.dockerConfig.enableDashboard := rfl

lemma servicesOf_spec (e o ah ch ls b ao g d : Bool) :
    (servicesOf e o ah ch ls b ao g d).take 2 = ["core", "redis"] ∧
    ("envoy" ∈ servicesOf e o ah ch ls b ao g d ↔ e = true) ∧
    ("observer" ∈ servicesOf e o ah ch ls b ao g d ↔ o = true) ∧
    ("autoheal" ∈ servicesOf e o ah ch ls b ao g d ↔ ah = true) ∧
    ("clickhouse" ∈ servicesOf e o ah ch ls b ao g d ↔ ch = true) ∧
    ("clickhouse-auto-import" ∈ servicesOf e o ah ch ls b ao g d ↔ ch = true) ∧
    ("litestream" ∈ servicesOf e o ah ch ls b ao g d ↔ ls = true) ∧
    ("upload-service" ∈ servicesOf e o ah ch ls b ao g d ↔ b = true) ∧
    ("fulfillment-service" ∈ servicesOf e o ah ch ls b ao g d ↔ b = true) ∧
    ("upload-service-pg" ∈ servicesOf e o ah ch ls b ao g d ↔ b = true) ∧
    ("localstack" ∈ servicesOf e o ah ch ls b ao g d ↔ b = true) ∧
    ("ao-cu" ∈ servicesOf e o ah ch ls b ao g d ↔ ao = true) ∧
    ("prometheus" ∈ servicesOf e o ah ch ls b ao g d ↔ g = true) ∧
    ("grafana" ∈ servicesOf e o ah ch ls b ao g d ↔ g = true) ∧
    ("node-exporter" ∈ servicesOf e o ah ch ls b ao g d ↔ g = true) ∧
    ("admin-dashboard" ∈ servicesOf e o ah ch ls b ao g d ↔ d = true) ∧
    (e = false → o = false → ah = false → ch = false → ls = false →
      b = false → ao = false → g = false → d = false →
      servicesOf e o ah ch ls b ao g d = ["core", "redis"]) := by
  refine ⟨by simp [servicesOf], ?_, ?_, ?_, ?_, ?_, ?_, ?_, ?_, ?_, ?_, ?_,
    ?_, ?_, ?_, ?_, ?_⟩
  all_goals
    first
    | (rintro rfl rfl rfl rfl rfl rfl rfl rfl rfl; rfl)
    | simp [servicesOf, mem_if_nil]

/-- C8: the Service Activation Set passed to the orchestration CLI starts
with the two mandatory services `core` and `redis`, and contains the
services of each optional component if and only if that component's gate
is set (`ENABLE_ENVOY` for envoy, `RUN_OBSERVER` for observer, the
`dockerConfig` enable flags for the rest); with no optional gates set it
equals exactly `["core", "redis"]`. -/
theorem service_activation_set_spec (c : DeploymentConfig) :
    (servicesToStart c).take 2 = ["core", "redis"] ∧
    ("envoy" ∈ servicesToStart c ↔
      (c.dashboardConfig "ENABLE_ENVOY").truthy = true) ∧
    ("observer" ∈ servicesToStart c ↔
      (c.nodeConfig "RUN_OBSERVER").truthy = true) ∧
    ("autoheal" ∈ servicesToStart c ↔ c.dockerConfig.enableAutoheal = true) ∧
    ("clickhouse" ∈ servicesToStart c ↔ c.dockerConfig.enableClickhouse = true) ∧
    ("clickhouse-auto-import" ∈ servicesToStart c ↔
      c.dockerConfig.enableClickhouse = true) ∧
    ("litestream" ∈ servicesToStart c ↔ c.dockerConfig.enableLitestream = true) ∧
    ("upload-service" ∈ servicesToStart c ↔ c.dockerConfig.enableBundler = true) ∧
    ("fulfillment-service" ∈ servicesToStart c ↔
      c.dockerConfig.enableBundler = true) ∧
    ("upload-service-pg" ∈ servicesToStart c ↔
      c.dockerConfig.enableBundler = true) ∧
    ("localstack" ∈ servicesToStart c ↔ c.dockerConfig.enableBundler = true) ∧
    ("ao-cu" ∈ servicesToStart c ↔ c.dockerConfig.enableAoCu = true) ∧
    ("prometheus" ∈ servicesToStart c ↔ c.dockerConfig.enableGrafana = true) ∧
    ("grafana" ∈ servicesToStart c ↔ c.dockerConfig.enableGrafana = true) ∧
    ("node-exporter" ∈ servicesToStart c ↔ c.dockerConfig.enableGrafana = true) ∧
    ("admin-dashboard" ∈ servicesToStart c ↔
      c.dockerConfig.enableDashboard = true) ∧
    ((c.dashboardConfig "ENABLE_ENVOY").truthy = false →
      (c.nodeConfig "RUN_OBSERVER").truthy = false →
      c.dockerConfig.enableAutoheal = false →
      c.dockerConfig.enableClickhouse = false →
      c.dockerConfig.enableLitestream = false →
      c.dockerConfig.enableBundler = false →
      c.dockerConfig.enableAoCu = false →
      c.dockerConfig.enableGrafana = false →
      c.dockerConfig.enableDashboard = false →
      servicesToStart c = ["core", "redis"]) := by
  rw [servicesToStart_eq_servicesOf]
  exact servicesOf_spec _ _ _ _ _ _ _ _ _

/-- C8 witness: the service-activation theorem evaluated at a
configuration with only the mandatory services enabled. -/
theorem service_activation_set_spec_witness :
    servicesToStart mandatoryOnlyConfig = ["core", "redis"] :=
  (service_activation_set_spec
      mandatoryOnlyConfig).2.2.2.2.2.2.2.2.2.2.2.2.2.2.2.2
    rfl rfl rfl rfl rfl rfl rfl rfl rfl

lemma not_deny_pair {k v K D : String} (hok : EmittedOK k v)
    (hKD : defaultValueFor K = some D) (hK : '=' ∉ K.data) (hD : '=' ∉ D.data)
    (h : renderLine k v = renderLine K D) : False := by
  obtain ⟨rfl, rfl⟩ := renderLine_inj hK hD h
  exact hok _ hKD rfl

/-- C2 (amended): no deny-listed placeholder pair (`AWS_ACCESS_KEY_ID=test`,
`AWS_SECRET_ACCESS_KEY=test`, `AWS_ENDPOINT=http://localstack:4566`,
`ADMIN_USERNAME=admin`, empty `ADMIN_PASSWORD`/`SSL_CERT_PATH`/
`SSL_KEY_PATH`) ever appears among the generated env-file lines, for every
configuration whose raw `ADDITIONAL_ENV` pass-through is inactive — the
keyed emission paths all suppress the deny-listed defaults. -/
theorem denylist_never_emitted (c : DeploymentConfig)
    (hAdd : (c.nodeConfig "ADDITIONAL_ENV").truthy = false) :
    ∀ l ∈ buildEnvFileLines c, l ∉ denyLines := by
  intro l hl hdeny
  obtain ⟨k, v, rfl, _, hok⟩ := buildEnvFileLines_shape hAdd hl
  simp only [denyLines, denyPairs, List.map_cons, List.map_nil, List.mem_cons,
    List.not_mem_nil, or_false] at hdeny
  rcases hdeny with h | h | h | h | h | h | h <;>
    exact not_deny_pair hok (by rfl) (by decide) (by decide) h

/-- C2 counterexample: the claim as stated fails — a configuration whose
`ADDITIONAL_ENV` field holds the deny-listed line `AWS_ACCESS_KEY_ID=test`
produces exactly that line as the generated env-file text, because the raw
pass-through applies no deny-list check. -/
theorem denylist_leaks_through_additional_env :
    buildEnvFile additionalEnvLeakConfig = "AWS_ACCESS_KEY_ID=test" ∧
    "AWS_ACCESS_KEY_ID=test" ∈ denyLines := by
  exact ⟨rfl, by decide⟩

/-- C2 witness: at a configuration with the bundler enabled and the
placeholder AWS key set, the deny-listed line is absent from the output. -/
theorem denylist_never_emitted_witness :
    "AWS_ACCESS_KEY_ID=test" ∉ buildEnvFileLines bundlerPlaceholderConfig :=
  fun hm =>
    denylist_never_emitted bundlerPlaceholderConfig rfl _ hm (by decide)

lemma takeWhile_append_eq {p : Char → Bool} :
    ∀ (a : List Char) (x : List Char), (∀ b ∈ a, p b = true) → p '=' = false →
    List.takeWhile p (a ++ '=' :: x) = a := by
  intro a
  induction a with
  | nil =>
    intro x _ hp
    simp [List.takeWhile, hp]
  | cons c a2 ih =>
    intro x ha hp
    have hc : p c = true := ha c (List.mem_cons_self c a2)
    simp only [List.cons_append, List.takeWhile, hc, List.cons.injEq]
    exact ⟨trivial, ih x (fun b hb => ha b (List.mem_cons_of_mem c hb)) hp⟩

lemma envKey_renderLine {k : String} (v : String) (hk : '=' ∉ k.data) :
    envKey (renderLine k v) = k := by
  unfold envKey
  rw [renderLine_data]
  rw [takeWhile_append_eq (p := fun c => decide (c ≠ '=')) k.data v.data
    (by intro b hb
        simp only [decide_eq_true_eq]
        intro hbe
        exact hk (hbe ▸ hb))
    (by decide)]

lemma activeKeys_wf (c : DeploymentConfig) : ∀ k ∈ activeKeys c, KeyWF k := by
  intro k hk
  obtain ⟨sg, hsg, hkseg⟩ := mem_activeKeys_elim hk
  revert hkseg
  refine segments_elim (fun sg => k ∈ segKeys sg → KeyWF k)
    ?_ ?_ ?_ ?_ ?_ ?_ ?_ ?_ ?_ ?_ ?_ ?_ ?_ ?_ ?_ ?_ ?_ ?_ ?_ ?_ ?_ ?_ sg hsg
  · intro hks; exact (by decide : ∀ x ∈ coreNodeConfigs, KeyWF x) k hks
  · intro hg hks; exact (by decide : ∀ x ∈ bundlerNodeKeys, KeyWF x) k hks
  · intro hg hks; exact (by decide : ∀ x ∈ envoyKeys, KeyWF x) k hks
  · intro hg hks; exact (by decide : ∀ x ∈ redisKeys, KeyWF x) k hks
  · intro hg hks; exact (by decide : ∀ x ∈ clickhouseKeys, KeyWF x) k hks
  · intro hg hks; exact (by decide : ∀ x ∈ litestreamKeys, KeyWF x) k hks
  · intro _ hks; exact absurd hks (List.not_mem_nil k)
  · intro hg hks; exact (by decide : ∀ x ∈ ["CORE_PORT"], KeyWF x) k hks
  · intro hg hks; exact (by decide : ∀ x ∈ ["ENVOY_PORT"], KeyWF x) k hks
  · intro hg hks; exact (by decide : ∀ x ∈ adminKeys, KeyWF x) k hks
  · intro hg hks; exact (by decide : ∀ x ∈ bundlerKeys, KeyWF x) k hks
  · intro hg hks; exact (by decide : ∀ x ∈ aoCuKeys, KeyWF x) k hks
  · intro hg hks; exact (by decide : ∀ x ∈ ["GRAFANA_PORT"], KeyWF x) k hks
  · intro hg hks; exact (by decide : ∀ x ∈ ["CLICKHOUSE_PORT"], KeyWF x) k hks
  · intro hg hks; exact (by decide : ∀ x ∈ ["DASHBOARD_PORT"], KeyWF x) k hks
  · intro hg hks; exact (by decide : ∀ x ∈ sslKeys, KeyWF x) k hks
  · intro hg hks; exact (by decide : ∀ x ∈ ["ENABLE_AO_CU"], KeyWF x) k hks
  · intro hg hks; exact (by decide : ∀ x ∈ ["ENABLE_GRAFANA"], KeyWF x) k hks
  · intro hg hks; exact (by decide : ∀ x ∈ ["ENABLE_DASHBOARD"], KeyWF x) k hks
  · intro hg hks; exact (by decide : ∀ x ∈ ["ENABLE_CLICKHOUSE"], KeyWF x) k hks
  · intro hg hks; exact (by decide : ∀ x ∈ ["ENABLE_LITESTREAM"], KeyWF x) k hks
  · intro hg hks; exact (by decide : ∀ x ∈ ["ENABLE_AUTOHEAL"], KeyWF x) k hks

/-- C4 (amended): for every configuration whose raw `ADDITIONAL_ENV`
pass-through is inactive, the generated env-file lines contain no key
belonging to a disabled optional service — bundler, AO compute unit,
Grafana and admin-dashboard keys are absent when their `dockerConfig`
flags are false, while the ClickHouse and Litestream key blocks are gated
by `dashboardConfig.ENABLE_CLICKHOUSE`/`ENABLE_LITESTREAM` (the
`dockerConfig` mirrors gate only the port re-emission and the feature
toggles), so both flags must be off for those keys to be absent. -/
theorem env_omits_disabled_service_keys (c : DeploymentConfig)
    (hAdd : (c.nodeConfig "ADDITIONAL_ENV").truthy = false) :
    ∀ l ∈ buildEnvFileLines c,
    (c.dockerConfig.enableBundler = false →
      envKey l ∉ bundlerOnlyKeys) ∧
    (c.dockerConfig.enableAoCu = false →
      envKey l ∉ aoCuOnlyKeys) ∧
    (c.dockerConfig.enableGrafana = false →
      envKey l ∉ grafanaOnlyKeys) ∧
    (c.dockerConfig.enableDashboard = false →
      envKey l ∉ dashboardOnlyKeys) ∧
    (c.dockerConfig.enableClickhouse = false →
      (c.dashboardConfig "ENABLE_CLICKHOUSE").truthy = false →
      envKey l ∉ clickhouseOnlyKeys) ∧
    (c.dockerConfig.enableLitestream = false →
      (c.dashboardConfig "ENABLE_LITESTREAM").truthy = false →
      envKey l ∉ litestreamOnlyKeys) := by
  intro l hl
  obtain ⟨k, v, rfl, hact, -⟩ := buildEnvFileLines_shape hAdd hl
  have hkwf := (activeKeys_wf c k hact).1
  rw [envKey_renderLine v hkwf]
  refine ⟨?_, ?_, ?_, ?_, ?_, ?_⟩
  · intro hB
    exact key_not_emitted c bundlerOnlyKeys
      (by decide)
      (fun hg => absurd hg (by simp [hB]))
      (fun _ => by decide)
      (fun _ => by decide)
      (fun _ => by decide)
      (fun _ => by decide)
      (by decide)
      (fun _ => by decide)
      (fun _ => by decide)
      (fun hg => absurd hg (by simp [hB]))
      (fun _ => by decide)
      (fun _ => by decide)
      (fun _ => by decide)
      (fun _ => by decide)
      (fun _ => by decide)
      (fun _ => by decide)
      (fun _ => by decide)
      (fun _ => by decide)
      (fun _ => by decide)
      (fun _ => by decide)
      (fun _ => by decide)
      k hact
  · intro hA
    exact key_not_emitted c aoCuOnlyKeys
      (by decide)
      (fun _ => by decide)
      (fun _ => by decide)
      (fun _ => by decide)
      (fun _ => by decide)
      (fun _ => by decide)
      (by decide)
      (fun _ => by decide)
      (fun _ => by decide)
      (fun _ => by decide)
      (fun hg => absurd hg (by simp [hA]))
      (fun _ => by decide)
      (fun _ => by decide)
      (fun _ => by decide)
      (fun _ => by decide)
      (fun hg => absurd hg (by simp [hA]))
      (fun _ => by decide)
      (fun _ => by decide)
      (fun _ => by decide)
      (fun _ => by decide)
      (fun _ => by decide)
      k hact
  · intro hG
    exact key_not_emitted c grafanaOnlyKeys
      (by decide)
      (fun _ => by decide)
      (fun _ => by decide)
      (fun _ => by decide)
      (fun _ => by decide)
      (fun _ => by decide)
      (by decide)
      (fun _ => by decide)
      (fun _ => by decide)
      (fun _ => by decide)
      (fun _ => by decide)
      (fun hg => absurd hg (by simp [hG]))
      (fun _ => by decide)
      (fun _ => by decide)
      (fun _ => by decide)
      (fun _ => by decide)
      (fun hg => absurd hg (by simp [hG]))
      (fun _ => by decide)
      (fun _ => by decide)
      (fun _ => by decide)
      (fun _ => by decide)
      k hact
  · intro hD
    exact key_not_emitted c dashboardOnlyKeys
      (by decide)
      (fun _ => by decide)
      (fun _ => by decide)
      (fun _ => by decide)
      (fun _ => by decide)
      (fun _ => by decide)
      (by decide)
      (fun _ => by decide)
      (fun hg => absurd hg (by simp [hD]))
      (fun _ => by decide)
      (fun _ => by decide)
      (fun _ => by decide)
      (fun _ => by decide)
      (fun hg => absurd hg (by simp [hD]))
      (fun _ => by decide)
      (fun _ => by decide)
      (fun _ => by decide)
      (fun hg => absurd hg (by simp [hD]))
      (fun _ => by decide)
      (fun _ => by decide)
      (fun _ => by decide)
      k hact
  · intro hC hCd
    exact key_not_emitted c clickhouseOnlyKeys
      (by decide)
      (fun _ => by decide)
      (fun _ => by decide)
      (fun _ => by decide)
      (fun hg => absurd hg (by simp [hCd]))
      (fun _ => by decide)
      (by decide)
      (fun _ => by decide)
      (fun _ => by decide)
      (fun _ => by decide)
      (fun _ => by decide)
      (fun _ => by decide)
      (fun hg => absurd hg (by simp [hC]))
      (fun _ => by decide)
      (fun _ => by decide)
      (fun _ => by decide)
      (fun _ => by decide)
      (fun _ => by decide)
      (fun hg => absurd hg (by simp [hC]))
      (fun _ => by decide)
      (fun _ => by decide)
      k hact
  · intro hL hLd
    exact key_not_emitted c litestreamOnlyKeys
      (by decide)
      (fun _ => by decide)
      (fun _ => by decide)
      (fun _ => by decide)
      (fun _ => by decide)
      (fun hg => absurd hg (by simp [hLd]))
      (by decide)
      (fun _ => by decide)
      (fun _ => by decide)
      (fun _ => by decide)
      (fun _ => by decide)
      (fun _ => by decide)
      (fun _ => by decide)
      (fun _ => by decide)
      (fun _ => by decide)
      (fun _ => by decide)
      (fun _ => by decide)
      (fun _ => by decide)
      (fun _ => by decide)
      (fun hg => absurd hg (by simp [hL]))
      (fun _ => by decide)
      k hact

/-- C4 counterexample: the claim as stated fails — with Grafana disabled,
an `ADDITIONAL_ENV` line `GRAFANA_PORT=1024` appears verbatim among the
generated lines, carrying a Grafana-owned key into the env file. -/
theorem disabled_service_key_leaks_through_additional_env :
    grafanaLeakConfig.dockerConfig.enableGrafana = false ∧
    "GRAFANA_PORT=1024" ∈ buildEnvFileLines grafanaLeakConfig ∧
    envKey "GRAFANA_PORT=1024" = "GRAFANA_PORT" ∧
    "GRAFANA_PORT" ∈ grafanaOnlyKeys := by
  exact ⟨rfl, by decide, by decide, by decide⟩

/-- C4 witness: at a mandatory-services-only configuration, the single
generated line carries none of the optional services' keys. -/
theorem env_omits_disabled_service_keys_witness :
    envKey "AR_IO_WALLET=w" ∉ bundlerOnlyKeys ∧
    envKey "AR_IO_WALLET=w" ∉ aoCuOnlyKeys ∧
    envKey "AR_IO_WALLET=w" ∉ grafanaOnlyKeys ∧
    envKey "AR_IO_WALLET=w" ∉ dashboardOnlyKeys ∧
    envKey "AR_IO_WALLET=w" ∉ clickhouseOnlyKeys ∧
    envKey "AR_IO_WALLET=w" ∉ litestreamOnlyKeys := by
  have h := env_omits_disabled_service_keys mandatoryOnlyConfig rfl
    "AR_IO_WALLET=w" (by decide)
  exact ⟨h.1 rfl, h.2.1 rfl, h.2.2.1 rfl, h.2.2.2.1 rfl,
    h.2.2.2.2.1 rfl rfl, h.2.2.2.2.2 rfl rfl⟩

lemma renderLine_not_comment {k v : String} (hk : KeyWF k) :
    (renderLine k v).data.head? ≠ some '#' := by
  rw [renderLine_data]
  cases hd : k.data with
  | nil => simp
  | cons c cs =>
    have := hk.2
    rw [hd] at this
    simpa using this

/-- C7 (amended): the generated main environment-file text is exactly the
`KEY=VALUE` lines joined by newlines with values interpolated verbatim,
and (when the raw `ADDITIONAL_ENV` pass-through is inactive) no line
begins with the `#` comment marker — in particular the text does not begin
with a comment line carrying a generation timestamp. -/
theorem env_text_is_plain_lines (c : DeploymentConfig) :
    buildEnvFile c = String.intercalate "\n" (buildEnvFileLines c) ∧
    ((c.nodeConfig "ADDITIONAL_ENV").truthy = false →
      ∀ l ∈ buildEnvFileLines c, l.data.head? ≠ some '#') := by
  refine ⟨rfl, ?_⟩
  intro hAdd l hl
  obtain ⟨k, v, rfl, hact, -⟩ := buildEnvFileLines_shape hAdd hl
  exact renderLine_not_comment (activeKeys_wf c k hact)

/-- C7 counterexample: the claim as stated fails — at a minimal
configuration the generated text is the single line `AR_IO_WALLET=w`,
which is a `KEY=VALUE` line and not a comment, so the text has no leading
timestamp comment line. -/
theorem env_text_has_no_timestamp_header :
    buildEnvFile mandatoryOnlyConfig = "AR_IO_WALLET=w" ∧
    (buildEnvFile mandatoryOnlyConfig).data.head? ≠ some '#' := by
  exact ⟨rfl, by decide⟩

/-- C7 witness: the plain-lines theorem evaluated at the
mandatory-services-only configuration and its single generated line. -/
theorem env_text_is_plain_lines_witness :
    "AR_IO_WALLET=w".data.head? ≠ some '#' :=
  (env_text_is_plain_lines mandatoryOnlyConfig).2 rfl "AR_IO_WALLET=w"
    (by decide)

set_option maxRecDepth 8192 in
/-- C3 counterexample: the manifest patcher is not idempotent — on a text
containing two copies of the prometheus mount line, applying the Grafana
transform twice yields a different text than applying it once, because the
mount-line removal deletes only the first occurrence per application. -/
theorem grafana_transform_not_idempotent :
    grafanaComposeTransform (grafanaComposeTransform twoMountsText) ≠
      grafanaComposeTransform twoMountsText := by
  decide

set_option maxRecDepth 16384 in
/-- C3 (amended): the port-mapping rewrite leaves already-substituted
bindings such as `${ENVOY_PORT:-3000}:3000` unchanged and is idempotent on
a representative compose fragment, and the full Grafana transform is
idempotent on a representative manifest containing at most one prometheus
mount line. -/
theorem patcher_idempotent_on_representative_inputs :
    fixPortMappings substitutedPortsText = substitutedPortsText ∧
    fixPortMappings (fixPortMappings grafanaSampleText) =
      fixPortMappings grafanaSampleText ∧
    grafanaComposeTransform (grafanaComposeTransform grafanaSampleText) =
      grafanaComposeTransform grafanaSampleText := by
  refine ⟨by decide, by decide, by decide⟩

lemma mem_foldl_awsPush {dd : EnvMap} {x : String} :
    ∀ (keys : List String) (acc : List String), x ∈ acc →
    x ∈ keys.foldl
      (fun ls k => if (dd k).truthy then ls ++ [renderLine k (dd k).interp]
        else ls) acc := by
  intro keys
  induction keys with
  | nil => intro acc h; exact h
  | cons k ks ih =>
    intro acc h
    simp only [List.foldl_cons]
    apply ih
    split
    · exact List.mem_append_left _ h
    · exact h

lemma mem_foldl_awsPush_of_mem {dd : EnvMap} :
    ∀ (keys : List String) (acc : List String) (k : String), k ∈ keys →
    (dd k).truthy = true →
    renderLine k (dd k).interp ∈ keys.foldl
      (fun ls k2 => if (dd k2).truthy then ls ++ [renderLine k2 (dd k2).interp]
        else ls) acc := by
  intro keys
  induction keys with
  | nil => intro acc k hk; exact absurd hk (List.not_mem_nil k)
  | cons k2 ks ih =>
    intro acc k hk ht
    rcases List.mem_cons.mp hk with rfl | hk2
    · simp only [List.foldl_cons, ht, if_true]
      exact mem_foldl_awsPush ks _
        (List.mem_append_right _ (List.mem_singleton_self _))
    · simp only [List.foldl_cons]
      exact ih _ k hk2 ht

/-- C10: the deny-list is not applied to the auxiliary bundler env file —
its lines always include the wallet line and the address line (even with
empty values), and every AWS credential key whose dashboard value is
truthy is written verbatim, including the placeholder value `test`. -/
theorem bundler_env_unfiltered (dd : EnvMap) (addr : String) :
    buildBundlerEnv dd addr =
      String.intercalate "\n" (buildBundlerEnvLines dd addr) ∧
    renderLine "BUNDLER_ARWEAVE_WALLET" (dd "BUNDLER_ARWEAVE_WALLET").interp ∈
      buildBundlerEnvLines dd addr ∧
    renderLine "BUNDLER_ARWEAVE_ADDRESS" addr ∈ buildBundlerEnvLines dd addr ∧
    (∀ k, k ∈ awsBundlerKeys → (dd k).truthy = true →
      renderLine k (dd k).interp ∈ buildBundlerEnvLines dd addr) := by
  refine ⟨rfl, ?_, ?_, ?_⟩
  · simp [buildBundlerEnvLines]
  · simp [buildBundlerEnvLines]
  · intro k hk ht
    unfold buildBundlerEnvLines
    exact List.mem_append_right _ (mem_foldl_awsPush_of_mem awsBundlerKeys [] k hk ht)

/-- C10 witness: with placeholder AWS credentials and an empty wallet, the
bundler env lines contain the empty wallet line and both `test`
credential lines verbatim. -/
theorem bundler_env_unfiltered_witness :
    "BUNDLER_ARWEAVE_WALLET=" ∈ buildBundlerEnvLines placeholderAwsDD "" ∧
    "AWS_ACCESS_KEY_ID=test" ∈ buildBundlerEnvLines placeholderAwsDD "" ∧
    "AWS_SECRET_ACCESS_KEY=test" ∈ buildBundlerEnvLines placeholderAwsDD "" := by
  have h := bundler_env_unfiltered placeholderAwsDD ""
  exact ⟨h.2.1, h.2.2.2 "AWS_ACCESS_KEY_ID" (by decide) rfl,
    h.2.2.2 "AWS_SECRET_ACCESS_KEY" (by decide) rfl⟩

end ArIoWizard
